import Mathlib

/-!
Shallow embedding of the connection manager in
src/modules/api_connection.py (class DerivAPIConnection), together with
the configuration constants of src/config.py and the token validator of
src/utils/validators.py, and proofs of the specified properties.

Modelling conventions:
* Python dicts keyed by strings become association lists with
  update-in-place insertion (a Python dict keeps the position of an
  existing key on assignment) and key removal for pop/del.
* asyncio futures are identified by opaque numeric tags; a future being
  set (set_result / set_exception) is recorded as an emitted event, not
  as mutation.
* Wall-clock inputs (time.time), generated uuids and remote responses
  are explicit parameters, so each operation is a pure function from a
  state plus its environment inputs to a new state plus its observable
  actions.
* Character classes (str.isalpha, str.isdigit, str.isalnum) are modelled
  on the ASCII range, which covers every token shape the program
  compares.
-/

/-- Association list over string keys, as used for
`pending_requests` (request id to future tag) and `subscriptions`
(subscription id to callback tag). -/
abbrev SMap := List (String × Nat)

/-- Dictionary lookup, `d.get(k)` / `d[k]`. -/
def lookupA : SMap → String → Option Nat
  | [], _ => none
  | (k, v) :: rest, key => if k == key then some v else lookupA rest key

/-- Membership test, `k in d`. -/
def hasKeyA (m : SMap) (key : String) : Bool :=
  (lookupA m key).isSome

/-- Dictionary assignment `d[k] = v`: replaces in place if the key is
present, appends otherwise. -/
def insertA : SMap → String → Nat → SMap
  | [], key, v => [(key, v)]
  | (k, w) :: rest, key, v =>
      if k == key then (key, v) :: rest else (k, w) :: insertA rest key v

/-- Key removal, `d.pop(k, None)` / `del d[k]`. -/
def eraseA : SMap → String → SMap
  | [], _ => []
  | (k, w) :: rest, key =>
      if k == key then rest else (k, w) :: eraseA rest key

/-- All keys distinct: the invariant every Python dict satisfies. -/
def keysDistinct : SMap → Bool
  | [] => true
  | (k, _) :: rest => !(hasKeyA rest k) && keysDistinct rest

/-- The empty string. -/
def blankS : String := ""

/-- Truthiness of an optional string, as Python tests
`if req_id and ...`: absent (None) and the empty string are falsy. -/
def truthyStr : Option String → Bool
  | none => false
  | some s => !(s == blankS)

/-- Mutable attributes of a DerivAPIConnection instance that the
verified claims depend on. -/
structure ConnState where
  is_demo : Bool
  api_token : String
  endpoint : String
  /-- Whether `self.websocket` holds a live transport handle
  (None becomes `false`). -/
  websocket : Bool
  is_connected : Bool
  connection_attempts : Nat
  simulation_mode : Bool
  pending_requests : SMap
  subscriptions : SMap
deriving DecidableEq, Repr

/-- One decoded inbound frame, keeping the fields `_message_handler`
reads: `req_id`, `msg_type` and `subscription.id` (each possibly
absent). -/
structure Frame where
  req_id : Option String
  msg_type : Option String
  subscription_id : Option String
deriving DecidableEq, Repr

/-- Observable outcome of routing one inbound frame. -/
inductive DispatchAction where
  /-- A pending future was popped and fulfilled with the frame. -/
  | resolve (req_id : String) (fut : Nat)
  /-- A registered subscription callback was invoked with the frame. -/
  | callbackInvoked (sub_id : String) (cb : Nat)
  /-- The frame was logged and discarded. -/
  | dropped
deriving DecidableEq, Repr

/-- Message types the dispatch loop treats as subscription pushes
(api_connection.py line 323). -/
def pushTypes : List String :=
  ["tick", "ohlc", "candle", "proposal_open_contract"]

/-- Whether a frame's msg_type is one of the known push types. -/
def isPushType : Option String → Bool
  | none => false
  | some t => pushTypes.contains t

/-- Routing of one inbound frame by `_message_handler`
(api_connection.py lines 313-335): a truthy req_id found in
pending_requests pops and fulfils that future; otherwise a push-typed
frame with a truthy registered subscription id invokes that callback
(callback errors are caught, so the state is unchanged either way);
any other frame is logged and discarded. -/
def handleMessage (st : ConnState) (f : Frame) : ConnState × DispatchAction :=
  let rid := f.req_id.getD blankS
  match (if truthyStr f.req_id then lookupA st.pending_requests rid else none) with
  | some fut =>
      ({st with pending_requests := eraseA st.pending_requests rid},
       DispatchAction.resolve rid fut)
  | none =>
      if isPushType f.msg_type then
        let sid := f.subscription_id.getD blankS
        match (if truthyStr f.subscription_id then lookupA st.subscriptions sid else none) with
        | some cb => (st, DispatchAction.callbackInvoked sid cb)
        | none => (st, DispatchAction.dropped)
      else
        (st, DispatchAction.dropped)

/-- Outcome of the internal `_send_request` up to the point the frame
has been handed to the transport (api_connection.py lines 354-375). -/
inductive IntSend where
  /-- Simulation branch: a synthesized response, nothing registered. -/
  | simResp
  /-- No websocket handle: error dict returned, nothing sent. -/
  | noConn
  /-- A PendingRequest was registered under this id and the frame was
  sent over the websocket. -/
  | registered (req_id : String)
deriving DecidableEq, Repr

/-- Registration phase of `_send_request`: in simulation mode a
simulated response is produced directly; otherwise, without a websocket
handle an error is returned; otherwise the request id is the millisecond
timestamp `str(int(time.time() * 1000))`, a fresh future is stored under
it in pending_requests (a plain dict assignment), and the frame is sent.
`time_ms` is the wall clock input and `fut` the tag of the future
created for this call. -/
def sendRequestInt (st : ConnState) (time_ms : Nat) (fut : Nat) :
    ConnState × IntSend :=
  if st.simulation_mode then (st, IntSend.simResp)
  else if !st.websocket then (st, IntSend.noConn)
  else
    let req_id := toString time_ms
    ({st with pending_requests := insertA st.pending_requests req_id fut},
     IntSend.registered req_id)

/-- Result dictionaries `_send_request` can hand back to its caller. -/
inductive ReqResult where
  | ok (f : Frame)
  | errorMsg (msg : String)
deriving DecidableEq, Repr

/-- Message of the timeout error dict of `_send_request`. -/
def timeoutErrMsg : String := "Request timed out"

/-- Timeout branch of `_send_request` (api_connection.py lines
379-382): `pending_requests.pop(req_id, None)` followed by returning a
timeout error dict. -/
def timeoutCleanup (st : ConnState) (req_id : String) :
    ConnState × ReqResult :=
  ({st with pending_requests := eraseA st.pending_requests req_id},
   ReqResult.errorMsg timeoutErrMsg)

/-- Observable outcome of the public `send_request`. -/
inductive PubSend where
  /-- Returned None without touching the transport. -/
  | rejected
  /-- Simulation branch: simulated response, transport untouched. -/
  | simulatedResponse
  /-- Delegated to `_send_request`, which sent the frame under this
  request id. -/
  | sentViaTransport (req_id : String)
deriving DecidableEq, Repr

/-- Public `send_request` (api_connection.py lines 518-541): the
simulation branch answers from the simulated responder when connected
and rejects otherwise; the live branch rejects unless both is_connected
and a websocket handle are present, and otherwise delegates to
`_send_request`. -/
def send_request (st : ConnState) (time_ms : Nat) (fut : Nat) :
    ConnState × PubSend :=
  if st.simulation_mode then
    if !st.is_connected then (st, PubSend.rejected)
    else (st, PubSend.simulatedResponse)
  else if !st.is_connected || !st.websocket then (st, PubSend.rejected)
  else
    match sendRequestInt st time_ms fut with
    | (st1, IntSend.registered rid) => (st1, PubSend.sentViaTransport rid)
    | (st1, _) => (st1, PubSend.rejected)

/-- Disconnect (api_connection.py lines 430-453): the simulation branch
only resets is_connected; the live branch, when a websocket handle
exists, closes it, clears is_connected, fails every not-yet-done
pending future with a connection-closed error and empties both the
pending-request and the subscription map; without a handle it does
nothing. The second component lists the future tags failed with the
connection-lost error. -/
def disconnect (st : ConnState) : ConnState × List Nat :=
  if st.simulation_mode then
    ({st with is_connected := false}, [])
  else if st.websocket then
    ({st with websocket := false, is_connected := false,
              pending_requests := [], subscriptions := []},
     st.pending_requests.map Prod.snd)
  else
    (st, [])

/-- Disconnect as the specification describes it, written from the
spec's words for the refinement comparison of claim C9: idempotent,
closes the transport, resolves all PendingRequests with connection-lost,
clears all Subscriptions and sets the state to Disconnected — with no
branch on the simulation mode. -/
def disconnectSpec (st : ConnState) : ConnState × List Nat :=
  ({st with websocket := false, is_connected := false,
            pending_requests := [], subscriptions := []},
   st.pending_requests.map Prod.snd)

/-- Environment outcome of one `connect()` call. -/
inductive ConnectOutcome where
  /-- websockets.connect raised. -/
  | transportFail
  /-- The authorize response carried an error payload. -/
  | authError
  /-- The authorize response succeeded. -/
  | authOk
deriving DecidableEq, Repr

/-- Connect (api_connection.py lines 77-141): an empty token fails at
once; the simulation branch marks the connection up and zeroes the
attempt counter without opening any transport; the live branch opens the
websocket, runs the handshake, and on an error payload disconnects and
fails, while on success it marks the connection up and zeroes the
attempt counter. The endpoint field is read but never written. -/
def connect (st : ConnState) (out : ConnectOutcome) : ConnState × Bool :=
  if st.api_token == blankS then (st, false)
  else if st.simulation_mode then
    ({st with is_connected := true, connection_attempts := 0}, true)
  else
    match out with
    | ConnectOutcome.transportFail => (st, false)
    | ConnectOutcome.authError =>
        ((disconnect {st with websocket := true}).1, false)
    | ConnectOutcome.authOk =>
        ({st with websocket := true, is_connected := true,
                  connection_attempts := 0}, true)

/-- Configured attempt bound, config.py line 77. -/
def MAX_RECONNECT_ATTEMPTS : Nat := 5

/-- Endpoint the constructor installs, api_connection.py line 54. -/
def initial_endpoint : String := "wss://ws.binaryws.com/websockets/v3"

/-- Alternative endpoint list of reconnect, api_connection.py lines
419-423. -/
def alternate_endpoints : List String :=
  ["wss://ws.binaryws.com/websockets/v3",
   "wss://ws.derivapi.com/websockets/v3",
   "wss://52.53.244.116/websockets/v3"]

/-- What one `reconnect()` call does before any new connection attempt
is resolved. -/
inductive ReconnectAction where
  /-- Simulation branch: reported success without any attempt. -/
  | simulated
  /-- Returned False without closing, rotating or reconnecting. -/
  | giveUp
  /-- Proceeded to a fresh connection attempt against this endpoint. -/
  | attempt (ep : String)
deriving DecidableEq, Repr

/-- Reconnect up to the renewed `connect()` call (api_connection.py
lines 388-428): the simulation branch reports success and resets the
counter; otherwise the counter is incremented and, once it has reached
MAX_RECONNECT_ATTEMPTS, the call gives up immediately; below the bound
it disconnects, rotates to an alternative endpoint when the incremented
counter exceeds one, and proceeds to attempt the (possibly new)
endpoint. -/
def reconnectStep (st : ConnState) : ConnState × ReconnectAction :=
  if st.simulation_mode then
    ({st with is_connected := true, connection_attempts := 0},
     ReconnectAction.simulated)
  else
    let n := st.connection_attempts + 1
    if MAX_RECONNECT_ATTEMPTS ≤ n then
      ({st with connection_attempts := n}, ReconnectAction.giveUp)
    else
      let st1 := (disconnect {st with connection_attempts := n}).1
      let st2 :=
        if 1 < n then
          {st1 with endpoint :=
            alternate_endpoints.getD (n % alternate_endpoints.length) st1.endpoint}
        else st1
      (st2, ReconnectAction.attempt st2.endpoint)

/-- Decoded subscription response of the live `subscribe` path. -/
inductive SubResponse where
  /-- The response carried an error payload. -/
  | subErr
  /-- The response carried no subscription id. -/
  | okNoId
  /-- The response carried this server-issued subscription id. -/
  | okWithId (sid : String)
deriving DecidableEq, Repr

/-- Simulation branch of `subscribe` (api_connection.py lines 562-578):
when connected, a uuid subscription id is generated (here the parameter
`sub_id`), the callback stored under it, and a background generator task
started; otherwise the call is rejected. -/
def subscribeSim (st : ConnState) (sub_id : String) (cb : Nat) :
    ConnState × Option String :=
  if !st.is_connected then (st, none)
  else ({st with subscriptions := insertA st.subscriptions sub_id cb},
        some sub_id)

/-- Live branch of `subscribe` (api_connection.py lines 580-609):
rejected unless is_connected and a websocket handle are present;
otherwise the request goes through `_send_request` (that correlation
exchange is summarized by the decoded response `resp`), an error or a
missing subscription id yields None, and a returned id registers the
callback under it. -/
def subscribeLive (st : ConnState) (resp : SubResponse) (cb : Nat) :
    ConnState × Option String :=
  if !st.is_connected || !st.websocket then (st, none)
  else
    match resp with
    | SubResponse.subErr => (st, none)
    | SubResponse.okNoId => (st, none)
    | SubResponse.okWithId sid =>
        ({st with subscriptions := insertA st.subscriptions sid cb},
         some sid)

/-- Public `subscribe`, branching on the simulation mode
(api_connection.py line 563). -/
def subscribe (st : ConnState) (sub_id : String) (resp : SubResponse)
    (cb : Nat) : ConnState × Option String :=
  if st.simulation_mode then subscribeSim st sub_id cb
  else subscribeLive st resp cb

/-- Whether the remote acknowledged the forget request with
`forget: 1`. -/
inductive ForgetOutcome where
  | ack
  | nack
deriving DecidableEq, Repr

/-- Unsubscribe (api_connection.py lines 611-652): the simulation branch
deletes a registered id and reports True, False for an unknown id; the
live branch is rejected without connection or handle, sends a forget
request through the correlator (summarized by `out`), and on an
acknowledged cancellation removes the callback and reports True. -/
def unsubscribe (st : ConnState) (subscription_id : String)
    (out : ForgetOutcome) : ConnState × Bool :=
  if st.simulation_mode then
    if hasKeyA st.subscriptions subscription_id then
      ({st with subscriptions := eraseA st.subscriptions subscription_id},
       true)
    else (st, false)
  else if !st.is_connected || !st.websocket then (st, false)
  else
    match out with
    | ForgetOutcome.ack =>
        ({st with subscriptions := eraseA st.subscriptions subscription_id},
         true)
    | ForgetOutcome.nack => (st, false)

/-- Guard of one iteration of the simulated push generator
`_simulate_subscription` (api_connection.py line 658): the callback is
invoked again only while the connection is up and the subscription id is
still registered. -/
def simulateSubscriptionFires (st : ConnState) (sub_id : String) : Bool :=
  st.is_connected && hasKeyA st.subscriptions sub_id

/-- ASCII model of Python str.isalnum: nonempty and every character a
letter or a digit. -/
def pyIsAlnum (s : String) : Bool :=
  !(s == blankS) && s.data.all (fun c => c.isAlpha || c.isDigit)

/-- The literal the validator treats as a testing marker. -/
def placeholderMarker : String := "placeholder_"

/-- Model of Python str.startswith on the character sequence. -/
def pyStartsWith (s marker : String) : Bool :=
  List.isPrefixOf marker.data s.data

/-- Placeholder test of api_connection.py lines 73-75: exactly 15
characters, all alphanumeric. -/
def is_placeholder_token (token : String) : Bool :=
  token.length == 15 && pyIsAlnum token

/-- Token validator of src/utils/validators.py lines 8-40: empty fails;
a placeholder-marked token passes; otherwise the token must be exactly
15 alphanumeric characters with at least 10 letters and at least one
digit. -/
def validate_api_token (token : String) : Bool :=
  if token == blankS then false
  else if pyStartsWith token placeholderMarker then true
  else if !(token.length == 15) then false
  else if !(pyIsAlnum token) then false
  else
    decide (10 ≤ (token.data.filter Char.isAlpha).length) &&
    decide (0 < (token.data.filter Char.isDigit).length)

/-- Constructor of DerivAPIConnection (api_connection.py lines 35-71):
chooses demo by argument or configured default, selects the matching
token, installs the fixed endpoint, starts disconnected with empty maps,
a zero attempt counter, and simulation_mode unconditionally False. -/
def initConn (use_demo : Option Bool) (default_is_demo : Bool)
    (tok_demo tok_real : String) : ConnState :=
  let d := use_demo.getD default_is_demo
  { is_demo := d,
    api_token := if d then tok_demo else tok_real,
    endpoint := initial_endpoint,
    websocket := false,
    is_connected := false,
    connection_attempts := 0,
    simulation_mode := false,
    pending_requests := [],
    subscriptions := [] }

/-- State update of `switch_account` up to the renewed `connect()` call
(api_connection.py lines 683-712): a no-op when already in the requested
mode; otherwise disconnect, swap token and endpoint for the requested
mode, and set simulation_mode to the placeholder test of the new token
conjoined with the ENABLE_SIMULATION configuration flag. -/
def switch_account (st : ConnState) (use_demo : Bool)
    (tok_demo tok_real ep_demo ep_real : String) (enable_sim : Bool) :
    ConnState :=
  if st.is_demo == use_demo then st
  else
    let st1 := (disconnect st).1
    let tok := if use_demo then tok_demo else tok_real
    { st1 with
        is_demo := use_demo,
        api_token := tok,
        endpoint := if use_demo then ep_demo else ep_real,
        simulation_mode := is_placeholder_token tok && enable_sim }

/-- Millisecond timestamp shared by two colliding submissions. -/
def tsCollide : String := toString 1700000000000

/-- Sample request id. -/
def rid1 : String := "900"

/-- Second sample request id. -/
def rid2 : String := "901"

/-- Sample subscription id. -/
def sid1 : String := "sub-a"

/-- Second sample subscription id. -/
def sid2 : String := "sub-b"

/-- The push message type of a tick frame. -/
def tickS : String := "tick"

/-- Fifteen letters and no digit: accepted by the placeholder test,
rejected by the validator. -/
def tokAllLetters : String := "AAAAAAAAAAAAAAA"

/-- A well-formed genuine token shape: 15 alphanumeric characters,
13 letters, 2 digits. -/
def tokGenuine : String := "aBcDeFgHiJkLm12"

/-- Another well-formed genuine token shape used as a demo token. -/
def tokDemoX : String := "DemoTokenAbc123"

/-- The IP-based fallback endpoint of the rotation list. -/
def ipFallback : String := "wss://52.53.244.116/websockets/v3"

/-- A connection state fresh from the constructor with the demo token
installed, shared by the concrete scenarios below. -/
def baseState : ConnState :=
  { is_demo := true, api_token := tokDemoX, endpoint := initial_endpoint,
    websocket := false, is_connected := false, connection_attempts := 0,
    simulation_mode := false, pending_requests := [], subscriptions := [] }

/-- A simulation-mode connected state with one pending request and one
subscription outstanding. -/
def stC2sim : ConnState :=
  { baseState with
      simulation_mode := true, is_connected := true,
      pending_requests := [(rid1, 0)], subscriptions := [(sid1, 5)] }

/-- A live connected state with a transport handle, two pending
requests and one subscription outstanding. -/
def stC2live : ConnState :=
  { baseState with
      websocket := true, is_connected := true,
      pending_requests := [(rid1, 0), (rid2, 1)],
      subscriptions := [(sid1, 5)] }

/-- A tick push frame carrying the sample subscription id. -/
def tickFrame1 : Frame :=
  { req_id := none, msg_type := some tickS, subscription_id := some sid1 }

/-- A simulation-mode connected state with nothing outstanding. -/
def stSimConn : ConnState :=
  { baseState with simulation_mode := true, is_connected := true }

/-- A simulation-mode connected state with one pending request and one
subscription, used for the transport-refinement comparison. -/
def stC9sim : ConnState :=
  { baseState with
      simulation_mode := true, is_connected := true,
      pending_requests := [(rid2, 4)], subscriptions := [(sid2, 9)] }

theorem truthyStr_none_eq_false : truthyStr none = false := rfl

theorem lookupA_eraseA_ne (m : SMap) (r r2 : String) (h : ¬ r2 = r) :
    lookupA (eraseA m r) r2 = lookupA m r2 := by
  induction m with
  | nil => rfl
  | cons hd tl ih =>
    obtain ⟨k, v⟩ := hd
    by_cases hk : k = r
    · subst hk
      have hkr2 : (k == r2) = false := by
        simp only [beq_eq_false_iff_ne, ne_eq]
        intro e; exact h e.symm
      simp [eraseA, lookupA, hkr2]
    · have hk2 : (k == r) = false := by
        simp only [beq_eq_false_iff_ne, ne_eq]; exact hk
      simp only [eraseA, hk2, if_neg, Bool.false_eq_true, lookupA]
      by_cases hk3 : k = r2
      · subst hk3; simp [lookupA]
      · have hk4 : (k == r2) = false := by
          simp only [beq_eq_false_iff_ne, ne_eq]; exact hk3
        simp [lookupA, hk4, ih]

theorem hasKeyA_eraseA_self (m : SMap) (r : String)
    (hd : keysDistinct m = true) : hasKeyA (eraseA m r) r = false := by
  induction m with
  | nil => rfl
  | cons hd0 tl ih =>
    obtain ⟨k, v⟩ := hd0
    simp only [keysDistinct, Bool.and_eq_true, Bool.not_eq_true'] at hd
    obtain ⟨hk1, hk2⟩ := hd
    by_cases hk : k = r
    · subst hk
      simpa [eraseA] using hk1
    · have hkb : (k == r) = false := by
        simp only [beq_eq_false_iff_ne, ne_eq]; exact hk
      simp only [eraseA, hkb, Bool.false_eq_true, if_neg, hasKeyA, lookupA]
      simpa [hasKeyA] using ih hk2

theorem handleMessage_cb_lookup (st : ConnState) (f : Frame)
    (sid : String) (cb : Nat)
    (h : (handleMessage st f).2 = DispatchAction.callbackInvoked sid cb) :
    lookupA st.subscriptions sid = some cb := by
  simp only [handleMessage] at h
  rcases h1 : (if truthyStr f.req_id then
      lookupA st.pending_requests (f.req_id.getD blankS) else none) with _ | fut
  · rw [h1] at h
    simp only at h
    by_cases hp : isPushType f.msg_type = true
    · rw [if_pos hp] at h
      rcases h2 : (if truthyStr f.subscription_id then
          lookupA st.subscriptions (f.subscription_id.getD blankS) else none)
          with _ | cb0
      · rw [h2] at h
        simp at h
      · rw [h2] at h
        simp only [DispatchAction.callbackInvoked.injEq] at h
        obtain ⟨hs, hc⟩ := h
        by_cases ht : truthyStr f.subscription_id = true
        · rw [if_pos ht] at h2
          rw [hs, hc] at h2
          exact h2
        · rw [if_neg ht] at h2
          exact absurd h2 (by simp)
    · rw [if_neg hp] at h
      simp at h
  · rw [h1] at h
    simp at h




/-- Claim C1: the claim states that every request submitted while
connected gets an identifier not currently in the pending map and that
each PendingRequest is resolved exactly once. The code derives the
identifier from the millisecond clock, so two submissions in the same
millisecond receive the same identifier and the plain dict assignment
silently replaces the first request's future, which is then
unreachable: after the two registrations below only the second future
remains under the shared key, and a response bearing that identifier
resolves the second future, never the first. -/
theorem C1_timestamp_collision_eval :
    (sendRequestInt {baseState with websocket := true}
        1700000000000 0).1.pending_requests = [(tsCollide, 0)]
    ∧ (sendRequestInt
        (sendRequestInt {baseState with websocket := true} 1700000000000 0).1
        1700000000000 1).1.pending_requests = [(tsCollide, 1)]
    ∧ (handleMessage
        (sendRequestInt
          (sendRequestInt {baseState with websocket := true} 1700000000000 0).1
          1700000000000 1).1
        { req_id := some tsCollide, msg_type := none,
          subscription_id := none }).2
      = DispatchAction.resolve tsCollide 1 := by
  refine ⟨rfl, rfl, ?_⟩
  decide

/-- Claim C3: dispatch routing priority of `_message_handler`. A frame
whose truthy req_id is a key of the pending map resolves exactly that
pending future, removing it and leaving the subscription registry
untouched; otherwise a frame of a known push type whose truthy
subscription id is registered invokes exactly that callback with no
state change; any other frame is dropped with no state change. -/
theorem C3_dispatch_priority (st : ConnState) (f : Frame) :
    (∀ fut, truthyStr f.req_id = true →
      lookupA st.pending_requests (f.req_id.getD blankS) = some fut →
      handleMessage st f =
        ({st with pending_requests :=
            eraseA st.pending_requests (f.req_id.getD blankS)},
         DispatchAction.resolve (f.req_id.getD blankS) fut))
    ∧ ((truthyStr f.req_id = true →
          lookupA st.pending_requests (f.req_id.getD blankS) = none) →
        isPushType f.msg_type = true →
        ∀ cb, truthyStr f.subscription_id = true →
          lookupA st.subscriptions (f.subscription_id.getD blankS) = some cb →
          handleMessage st f =
            (st, DispatchAction.callbackInvoked
                   (f.subscription_id.getD blankS) cb))
    ∧ ((truthyStr f.req_id = true →
          lookupA st.pending_requests (f.req_id.getD blankS) = none) →
        (isPushType f.msg_type = true →
          truthyStr f.subscription_id = true →
          lookupA st.subscriptions (f.subscription_id.getD blankS) = none) →
        handleMessage st f = (st, DispatchAction.dropped)) := by
  refine ⟨?_, ?_, ?_⟩
  · intro fut ht hl
    simp [handleMessage, ht, hl]
  · intro h1 hp cb ht2 hl2
    have hscrut : (if truthyStr f.req_id then
        lookupA st.pending_requests (f.req_id.getD blankS) else none) = none := by
      cases ht : truthyStr f.req_id
      · simp
      · simp [h1 ht]
    simp [handleMessage, hscrut, hp, ht2, hl2]
  · intro h1 h2
    have hscrut : (if truthyStr f.req_id then
        lookupA st.pending_requests (f.req_id.getD blankS) else none) = none := by
      cases ht : truthyStr f.req_id
      · simp
      · simp [h1 ht]
    cases hp : isPushType f.msg_type
    · simp [handleMessage, hscrut, hp]
    · have hscrut2 : (if truthyStr f.subscription_id then
          lookupA st.subscriptions (f.subscription_id.getD blankS) else none)
          = none := by
        cases ht2 : truthyStr f.subscription_id
        · simp
        · simp [h2 hp ht2]
      simp [handleMessage, hscrut, hp, hscrut2]

/-- Claim C3 witness: a concrete frame matching a pending request is
routed to that request's future. -/
theorem C3_dispatch_priority_witness :
    handleMessage {baseState with pending_requests := [(rid1, 3)]}
        { req_id := some rid1, msg_type := none, subscription_id := none }
      = ({{baseState with pending_requests := [(rid1, 3)]} with
            pending_requests := eraseA [(rid1, 3)] rid1},
         DispatchAction.resolve ((some rid1).getD blankS) 3) :=
  (C3_dispatch_priority {baseState with pending_requests := [(rid1, 3)]}
      { req_id := some rid1, msg_type := none, subscription_id := none }).1
    3 (by decide) (by decide)

/-- Claim C4: on timeout `_send_request` removes the request's pending
entry and returns the timeout error; a response bearing that identifier
arriving afterwards is dropped by the dispatch loop with no state
change and no completion, and every other in-flight request's entry is
untouched by the cleanup. -/
theorem C4_timeout_then_late_response (st : ConnState) (r : String)
    (f : Frame)
    (hd : keysDistinct st.pending_requests = true)
    (hf : f.req_id = some r)
    (hs : f.subscription_id = none) :
    (timeoutCleanup st r).2 = ReqResult.errorMsg timeoutErrMsg
    ∧ hasKeyA (timeoutCleanup st r).1.pending_requests r = false
    ∧ (∀ r2, ¬ r2 = r →
        lookupA (timeoutCleanup st r).1.pending_requests r2
          = lookupA st.pending_requests r2)
    ∧ handleMessage (timeoutCleanup st r).1 f
        = ((timeoutCleanup st r).1, DispatchAction.dropped) := by
  refine ⟨rfl, ?_, ?_, ?_⟩
  · exact hasKeyA_eraseA_self st.pending_requests r hd
  · intro r2 hr2
    exact lookupA_eraseA_ne st.pending_requests r r2 hr2
  · have hnone : lookupA (timeoutCleanup st r).1.pending_requests r = none := by
      have h2 := hasKeyA_eraseA_self st.pending_requests r hd
      unfold hasKeyA at h2
      cases hl : lookupA (timeoutCleanup st r).1.pending_requests r
      · rfl
      · exfalso
        rw [show (timeoutCleanup st r).1.pending_requests
              = eraseA st.pending_requests r from rfl] at hl
        rw [hl] at h2
        simp at h2
    have hscrut : (if truthyStr f.req_id then
        lookupA (timeoutCleanup st r).1.pending_requests (f.req_id.getD blankS)
        else none) = none := by
      cases ht : truthyStr f.req_id
      · simp
      · simpa [hf] using hnone
    cases hp : isPushType f.msg_type
    · simp [handleMessage, hscrut, hp]
    · simp [handleMessage, hscrut, hp, hs, truthyStr_none_eq_false]

/-- Claim C4 witness: timing out a concrete request removes only its
entry, and its late response is dropped without touching the state. -/
theorem C4_timeout_then_late_response_witness :
    hasKeyA (timeoutCleanup
        {baseState with pending_requests := [(rid1, 0), (rid2, 1)]}
        rid1).1.pending_requests rid1 = false
    ∧ lookupA (timeoutCleanup
        {baseState with pending_requests := [(rid1, 0), (rid2, 1)]}
        rid1).1.pending_requests rid2
      = lookupA [(rid1, 0), (rid2, 1)] rid2
    ∧ handleMessage (timeoutCleanup
        {baseState with pending_requests := [(rid1, 0), (rid2, 1)]}
        rid1).1
        { req_id := some rid1, msg_type := none, subscription_id := none }
      = ((timeoutCleanup
          {baseState with pending_requests := [(rid1, 0), (rid2, 1)]}
          rid1).1, DispatchAction.dropped) := by
  have h := C4_timeout_then_late_response
    {baseState with pending_requests := [(rid1, 0), (rid2, 1)]} rid1
    { req_id := some rid1, msg_type := none, subscription_id := none }
    (by decide) rfl rfl
  exact ⟨h.2.1, h.2.2.1 rid2 (by decide), h.2.2.2⟩

/-- Claim C2 counterexample: in simulation mode with one pending
request and one subscription outstanding, disconnect fails no future
with a connection-lost error and leaves both maps non-empty, contrary
to the claim that every state is cleared. -/
theorem C2_sim_disconnect_counterexample :
    (disconnect stC2sim).2 = []
    ∧ (disconnect stC2sim).1.pending_requests = [(rid1, 0)]
    ∧ (disconnect stC2sim).1.subscriptions = [(sid1, 5)]
    ∧ (disconnect stC2sim).1.is_connected = false := by
  decide

/-- Claim C2 amended: in live mode with an open transport handle,
disconnect fails every pending future with the connection-lost error,
empties both maps and clears the connection flags; in simulation mode
it only clears is_connected, leaving both maps as they are and failing
nothing; in live mode without a handle it changes nothing; and a second
disconnect never changes the state further or fails another future. -/
theorem C2_disconnect_behavior (st : ConnState) :
    (st.simulation_mode = false → st.websocket = true →
      disconnect st =
        ({st with websocket := false, is_connected := false,
                  pending_requests := [], subscriptions := []},
         st.pending_requests.map Prod.snd))
    ∧ (st.simulation_mode = true →
        disconnect st = ({st with is_connected := false}, []))
    ∧ (st.simulation_mode = false → st.websocket = false →
        disconnect st = (st, []))
    ∧ disconnect (disconnect st).1 = ((disconnect st).1, []) := by
  refine ⟨?_, ?_, ?_, ?_⟩
  · intro h1 h2
    simp [disconnect, h1, h2]
  · intro h1
    simp [disconnect, h1]
  · intro h1 h2
    simp [disconnect, h1, h2]
  · cases h1 : st.simulation_mode
    · cases h2 : st.websocket
      · simp [disconnect, h1, h2]
      · simp [disconnect, h1, h2]
    · simp [disconnect, h1]

/-- Claim C2 witness: a live state with a handle, two pending requests
and one subscription is fully cleared and both futures are failed. -/
theorem C2_disconnect_behavior_witness :
    disconnect stC2live
      = ({ stC2live with
            websocket := false, is_connected := false,
            pending_requests := [], subscriptions := [] },
         stC2live.pending_requests.map Prod.snd) :=
  (C2_disconnect_behavior stC2live).1 rfl rfl

/-- Claim C5 counterexample: with the attempt counter at
MAX_RECONNECT_ATTEMPTS minus one, the incremented counter equals the
configured maximum without exceeding it, yet reconnect gives up instead
of proceeding with an attempt as the claim requires below the bound. -/
theorem C5_reconnect_counterexample :
    (reconnectStep {baseState with connection_attempts := 4}).2
      = ReconnectAction.giveUp
    ∧ ({baseState with connection_attempts := 4} :
        ConnState).connection_attempts + 1 = MAX_RECONNECT_ATTEMPTS := by
  decide

/-- Claim C5 amended: outside simulation mode, reconnect increments the
counter and gives up exactly when the incremented counter has reached
(is greater than or equal to) MAX_RECONNECT_ATTEMPTS, returning failure
with no other state change — no transport close or reopen, no endpoint
rotation, no handshake; strictly below that bound it proceeds with an
attempt. At most MAX_RECONNECT_ATTEMPTS minus one attempts are
therefore ever made. -/
theorem C5_reconnect_bound (st : ConnState)
    (h : st.simulation_mode = false) :
    (MAX_RECONNECT_ATTEMPTS ≤ st.connection_attempts + 1 →
      reconnectStep st
        = ({st with connection_attempts := st.connection_attempts + 1},
           ReconnectAction.giveUp))
    ∧ (st.connection_attempts + 1 < MAX_RECONNECT_ATTEMPTS →
        (reconnectStep st).2
          = ReconnectAction.attempt (reconnectStep st).1.endpoint) := by
  constructor
  · intro hle
    simp [reconnectStep, h, hle]
  · intro hlt
    have hn : ¬ MAX_RECONNECT_ATTEMPTS ≤ st.connection_attempts + 1 := by
      omega
    simp only [reconnectStep, h, Bool.false_eq_true, if_false, hn, if_neg]

/-- Claim C5 witness: a counter far past the bound gives up with only
the counter changed, and a fresh counter proceeds with an attempt. -/
theorem C5_reconnect_bound_witness :
    reconnectStep {baseState with connection_attempts := 7}
      = ({baseState with connection_attempts := 8},
         ReconnectAction.giveUp)
    ∧ (reconnectStep baseState).2
      = ReconnectAction.attempt (reconnectStep baseState).1.endpoint := by
  constructor
  · exact (C5_reconnect_bound {baseState with connection_attempts := 7}
      rfl).1 (by decide)
  · exact (C5_reconnect_bound baseState rfl).2 (by decide)

theorem unsubscribe_true_subs (st : ConnState) (sid : String)
    (out : ForgetOutcome) (h : (unsubscribe st sid out).2 = true) :
    (unsubscribe st sid out).1.subscriptions
      = eraseA st.subscriptions sid := by
  unfold unsubscribe at h ⊢
  by_cases hm : st.simulation_mode = true
  · rw [if_pos hm] at h ⊢
    by_cases hk : hasKeyA st.subscriptions sid = true
    · rw [if_pos hk]
    · rw [if_neg hk] at h
      simp at h
  · rw [if_neg hm] at h ⊢
    by_cases hg : (!st.is_connected || !st.websocket) = true
    · rw [if_pos hg] at h
      simp at h
    · rw [if_neg hg] at h ⊢
      cases out
      · rfl
      · simp at h

/-- Claim C6: after unsubscribe has returned True the subscription id
is no longer registered, the dispatch loop can never again invoke the
callback registered for that id, and the simulated push generator's
guard fails, so no callback for that id fires after the unsubscribe —
in particular a subscribe immediately followed by a successful
unsubscribe (the witness below) never fires the callback at all. -/
theorem C6_unsubscribe_silences (st : ConnState) (sid : String)
    (out : ForgetOutcome)
    (hd : keysDistinct st.subscriptions = true)
    (h : (unsubscribe st sid out).2 = true) :
    hasKeyA (unsubscribe st sid out).1.subscriptions sid = false
    ∧ (∀ f cb, ((handleMessage (unsubscribe st sid out).1 f).2
        == DispatchAction.callbackInvoked sid cb) = false)
    ∧ simulateSubscriptionFires (unsubscribe st sid out).1 sid = false := by
  have hsub := unsubscribe_true_subs st sid out h
  have hkey : hasKeyA (unsubscribe st sid out).1.subscriptions sid = false := by
    rw [hsub]
    exact hasKeyA_eraseA_self st.subscriptions sid hd
  refine ⟨hkey, ?_, ?_⟩
  · intro f cb
    cases hbeq : ((handleMessage (unsubscribe st sid out).1 f).2
        == DispatchAction.callbackInvoked sid cb)
    · rfl
    · exfalso
      have heq := eq_of_beq hbeq
      have hlk := handleMessage_cb_lookup _ f sid cb heq
      rw [hsub] at hlk
      have h2 := hasKeyA_eraseA_self st.subscriptions sid hd
      unfold hasKeyA at h2
      rw [hlk] at h2
      simp at h2
  · unfold simulateSubscriptionFires
    rw [hkey]
    simp

/-- Claim C6 witness: in the simulated connected state, subscribing and
then immediately unsubscribing leaves the id unregistered, a concrete
tick push for that id does not invoke the callback, and the simulated
generator stops. -/
theorem C6_unsubscribe_silences_witness :
    hasKeyA (unsubscribe
        (subscribe stSimConn sid1 SubResponse.okNoId 7).1
        sid1 ForgetOutcome.ack).1.subscriptions sid1 = false
    ∧ ((handleMessage (unsubscribe
        (subscribe stSimConn sid1 SubResponse.okNoId 7).1
        sid1 ForgetOutcome.ack).1 tickFrame1).2
        == DispatchAction.callbackInvoked sid1 7) = false
    ∧ simulateSubscriptionFires (unsubscribe
        (subscribe stSimConn sid1 SubResponse.okNoId 7).1
        sid1 ForgetOutcome.ack).1 sid1 = false := by
  have h := C6_unsubscribe_silences
    (subscribe stSimConn sid1 SubResponse.okNoId 7).1
    sid1 ForgetOutcome.ack (by decide) (by decide)
  exact ⟨h.1, h.2.1 tickFrame1 7, h.2.2⟩

/-- Claim C7 counterexample: connecting in simulation mode yields a
state with no transport handle in which the public send operation
nevertheless returns a simulated response rather than the error the
claim requires whenever no transport handle exists. -/
theorem C7_sim_send_counterexample :
    (connect { baseState with simulation_mode := true }
        ConnectOutcome.authOk).1.websocket = false
    ∧ (send_request (connect { baseState with simulation_mode := true }
        ConnectOutcome.authOk).1 5 0).2 = PubSend.simulatedResponse := by
  decide

/-- Claim C7 amended: in live mode (simulation off) send_request and
subscribe return an error value with no state change and hand nothing
to the transport unless both is_connected and a transport handle are
present; in simulation mode the gate is is_connected alone, no
transport handle being involved; and the internal send path used by the
authentication handshake requires only the transport handle, so the
authorize request is permitted while connecting before is_connected
becomes true. -/
theorem C7_send_gating (st : ConnState) (t fut : Nat) (sid : String)
    (resp : SubResponse) (cb : Nat) :
    (st.simulation_mode = false →
      st.is_connected = false ∨ st.websocket = false →
      send_request st t fut = (st, PubSend.rejected))
    ∧ (st.simulation_mode = false →
        st.is_connected = false ∨ st.websocket = false →
        subscribe st sid resp cb = (st, none))
    ∧ (st.simulation_mode = true → st.is_connected = false →
        send_request st t fut = (st, PubSend.rejected))
    ∧ (st.simulation_mode = true → st.is_connected = true →
        send_request st t fut = (st, PubSend.simulatedResponse))
    ∧ (st.simulation_mode = false → st.websocket = true →
        sendRequestInt st t fut
          = ({st with pending_requests :=
                insertA st.pending_requests (toString t) fut},
             IntSend.registered (toString t))) := by
  refine ⟨?_, ?_, ?_, ?_, ?_⟩
  · intro hm hg
    rcases hg with hg | hg
    · simp [send_request, hm, hg]
    · simp [send_request, hm, hg]
  · intro hm hg
    rcases hg with hg | hg
    · simp [subscribe, subscribeLive, hm, hg]
    · simp [subscribe, subscribeLive, hm, hg]
  · intro hm hc
    simp [send_request, hm, hc]
  · intro hm hc
    simp [send_request, hm, hc]
  · intro hm hw
    simp [sendRequestInt, hm, hw]

/-- Claim C7 witness: the freshly constructed live state rejects both
send_request and subscribe, while with only a transport handle the
internal handshake path registers and sends. -/
theorem C7_send_gating_witness :
    send_request baseState 5 0 = (baseState, PubSend.rejected)
    ∧ subscribe baseState sid2 SubResponse.okNoId 7 = (baseState, none)
    ∧ sendRequestInt { baseState with websocket := true } 5 0
      = ({ baseState with
            websocket := true,
            pending_requests := insertA baseState.pending_requests (toString 5) 0 },
         IntSend.registered (toString 5)) := by
  refine ⟨?_, ?_, ?_⟩
  · exact (C7_send_gating baseState 5 0 sid2 SubResponse.okNoId 7).1
      rfl (Or.inl rfl)
  · exact (C7_send_gating baseState 5 0 sid2 SubResponse.okNoId 7).2.1
      rfl (Or.inl rfl)
  · exact (C7_send_gating { baseState with websocket := true } 5 0 sid2
      SubResponse.okNoId 7).2.2.2.2 rfl rfl

/-- Claim C8 counterexample: from a state one failed attempt in, the
next reconnect rotates to the IP fallback endpoint and the following
successful connect resets the attempt counter but leaves the endpoint
cursor on the fallback instead of the primary endpoint. -/
theorem C8_endpoint_counterexample :
    (connect (reconnectStep { baseState with connection_attempts := 1 }).1
        ConnectOutcome.authOk).2 = true
    ∧ (connect (reconnectStep { baseState with connection_attempts := 1 }).1
        ConnectOutcome.authOk).1.connection_attempts = 0
    ∧ (connect (reconnectStep { baseState with connection_attempts := 1 }).1
        ConnectOutcome.authOk).1.endpoint = ipFallback
    ∧ (ipFallback == initial_endpoint) = false := by
  decide

/-- Claim C8 amended: every successful connect resets the attempt
counter to zero but leaves the endpoint cursor exactly where it was, so
a subsequent reconnection sequence starts from whatever endpoint the
previous sequence ended on (its first retry does not rotate), not from
the primary endpoint. -/
theorem C8_success_reset (st : ConnState) (out : ConnectOutcome)
    (h : (connect st out).2 = true) :
    (connect st out).1.connection_attempts = 0
    ∧ (connect st out).1.endpoint = st.endpoint
    ∧ (st.simulation_mode = false →
        (reconnectStep (connect st out).1).2
          = ReconnectAction.attempt st.endpoint) := by
  cases htb : (st.api_token == blankS) with
  | true => simp [connect, htb] at h
  | false =>
    cases hmb : st.simulation_mode with
    | true =>
      refine ⟨by simp [connect, htb, hmb], by simp [connect, htb, hmb], ?_⟩
      intro hm2
      exact absurd hm2 (by simp)
    | false =>
      cases out with
      | transportFail => simp [connect, htb, hmb] at h
      | authError => simp [connect, htb, hmb] at h
      | authOk =>
        refine ⟨by simp [connect, htb, hmb], by simp [connect, htb, hmb], ?_⟩
        intro hm2
        norm_num [connect, htb, hmb, reconnectStep, disconnect,
          MAX_RECONNECT_ATTEMPTS]

/-- Claim C8 witness: a successful connect from the fresh state keeps
the attempt counter at zero and the endpoint unchanged, and the next
reconnect attempts that same endpoint. -/
theorem C8_success_reset_witness :
    (connect baseState ConnectOutcome.authOk).1.connection_attempts = 0
    ∧ (connect baseState ConnectOutcome.authOk).1.endpoint
      = baseState.endpoint
    ∧ (reconnectStep (connect baseState ConnectOutcome.authOk).1).2
      = ReconnectAction.attempt baseState.endpoint := by
  have h := C8_success_reset baseState ConnectOutcome.authOk (by decide)
  exact ⟨h.1, h.2.1, h.2.2 rfl⟩

/-- Claim C9 counterexample: on the same state carrying one pending
request and one subscription, the simulation-mode disconnect and the
specified transport-agnostic disconnect disagree: the simulated run
fails no future and leaves both maps intact, while the specified
behavior, which the live path implements, fails the future and clears
both maps — so simulated operation is not the live operation run over a
swapped transport. -/
theorem C9_mode_counterexample :
    (disconnect stC9sim).2 = []
    ∧ (disconnect stC9sim).1.pending_requests = [(rid2, 4)]
    ∧ (disconnect stC9sim).1.subscriptions = [(sid2, 9)]
    ∧ (disconnectSpec stC9sim).2 = [4]
    ∧ (disconnectSpec stC9sim).1.pending_requests = []
    ∧ (disconnectSpec stC9sim).1.subscriptions = [] := by
  decide

/-- Claim C9 amended: the connection manager itself branches on the
simulation mode rather than swapping only the transport. The live path
with an open handle implements the specified disconnect, but the
simulation branch of disconnect keeps both maps and fails nothing; the
simulation branch of send_request bypasses the correlator entirely
(state unchanged, no pending entry) while the live branch registers a
pending entry; and the simulation branch of reconnect reports success
without incrementing the attempt counter. -/
theorem C9_mode_branches (st : ConnState) (t fut : Nat) :
    (st.simulation_mode = false → st.websocket = true →
      disconnect st = disconnectSpec st)
    ∧ (st.simulation_mode = true →
        (disconnect st).1.pending_requests = st.pending_requests
        ∧ (disconnect st).1.subscriptions = st.subscriptions
        ∧ (disconnect st).2 = [])
    ∧ (st.simulation_mode = true → st.is_connected = true →
        send_request st t fut = (st, PubSend.simulatedResponse))
    ∧ (st.simulation_mode = false → st.is_connected = true →
        st.websocket = true →
        (send_request st t fut).1.pending_requests
          = insertA st.pending_requests (toString t) fut)
    ∧ (st.simulation_mode = true →
        reconnectStep st
          = ({st with is_connected := true, connection_attempts := 0},
             ReconnectAction.simulated)) := by
  refine ⟨?_, ?_, ?_, ?_, ?_⟩
  · intro hm hw
    simp [disconnect, disconnectSpec, hm, hw]
  · intro hm
    simp [disconnect, hm]
  · intro hm hc
    simp [send_request, hm, hc]
  · intro hm hc hw
    simp [send_request, sendRequestInt, hm, hc, hw]
  · intro hm
    simp [reconnectStep, hm]

/-- Claim C9 witness: concrete instances of the live-path agreement
with the specified disconnect and of the simulation branches of
send_request and reconnect. -/
theorem C9_mode_branches_witness :
    disconnect stC2live = disconnectSpec stC2live
    ∧ send_request stSimConn 5 0 = (stSimConn, PubSend.simulatedResponse)
    ∧ reconnectStep stC9sim
      = ({ stC9sim with is_connected := true, connection_attempts := 0 },
         ReconnectAction.simulated) := by
  refine ⟨?_, ?_, ?_⟩
  · exact (C9_mode_branches stC2live 5 0).1 rfl rfl
  · exact (C9_mode_branches stSimConn 5 0).2.2.1 rfl rfl
  · exact (C9_mode_branches stC9sim 5 0).2.2.2.2 rfl

/-- Claim C10 counterexample: the claim asserts the placeholder test is
exactly the token shape the validator accepts as genuine, but a token
of fifteen letters and no digit passes the placeholder test while the
validator rejects it — the placeholder test accepts a strict superset. -/
theorem C10_shape_counterexample :
    is_placeholder_token tokAllLetters = true
    ∧ validate_api_token tokAllLetters = false := by
  decide

/-- Claim C10 amended: simulation_mode is False after construction
regardless of configuration; no operation other than switch_account
ever changes it; switch_account sets it to the placeholder test of the
newly selected token (exactly 15 alphanumeric characters — a superset
of the shapes validate_api_token accepts as genuine) conjoined with
ENABLE_SIMULATION; and every non-placeholder-marked token the validator
accepts passes the placeholder test, so under the default configuration
a switch_account with a well-formed real token silently enables the
simulated responder. -/
theorem C10_simulation_gate (use_demo : Option Bool) (dd : Bool)
    (td tr : String) (st : ConnState) (ud : Bool)
    (td2 tr2 ed er : String) (es : Bool) (tok : String) (t fut : Nat)
    (out : ConnectOutcome) (fo : ForgetOutcome) (f : Frame)
    (r sidX : String) (resp : SubResponse) (cb : Nat) :
    (initConn use_demo dd td tr).simulation_mode = false
    ∧ ((st.is_demo == ud) = false →
        (switch_account st ud td2 tr2 ed er es).simulation_mode
          = (is_placeholder_token (if ud then td2 else tr2) && es))
    ∧ (validate_api_token tok = true →
        pyStartsWith tok placeholderMarker = false →
        is_placeholder_token tok = true)
    ∧ (disconnect st).1.simulation_mode = st.simulation_mode
    ∧ (connect st out).1.simulation_mode = st.simulation_mode
    ∧ (reconnectStep st).1.simulation_mode = st.simulation_mode
    ∧ (send_request st t fut).1.simulation_mode = st.simulation_mode
    ∧ (handleMessage st f).1.simulation_mode = st.simulation_mode
    ∧ (timeoutCleanup st r).1.simulation_mode = st.simulation_mode
    ∧ (subscribe st sidX resp cb).1.simulation_mode = st.simulation_mode
    ∧ (unsubscribe st sidX fo).1.simulation_mode = st.simulation_mode := by
  refine ⟨rfl, ?_, ?_, ?_, ?_, ?_, ?_, ?_, rfl, ?_, ?_⟩
  · intro hne
    simp [switch_account, hne]
  · intro h1 h2
    unfold validate_api_token at h1
    rw [h2] at h1
    simp only [Bool.false_eq_true, if_false] at h1
    split at h1
    · exact absurd h1 (by simp)
    · split at h1
      · exact absurd h1 (by simp)
      · split at h1
        · exact absurd h1 (by simp)
        · next hblank hlen halnum =>
            unfold is_placeholder_token
            simp only [Bool.not_eq_true'] at hlen halnum
            simp only [Bool.not_eq_false] at hlen halnum
            rw [hlen, halnum]
            rfl
  · cases hmb : st.simulation_mode <;> cases hw : st.websocket <;>
      simp [disconnect, hmb, hw]
  · cases htb : (st.api_token == blankS) <;> cases hmb : st.simulation_mode <;>
      cases hw : st.websocket <;> cases out <;>
      simp [connect, disconnect, htb, hmb, hw]
  · cases hmb : st.simulation_mode <;> cases hw : st.websocket <;>
      by_cases hle : MAX_RECONNECT_ATTEMPTS ≤ st.connection_attempts + 1 <;>
      by_cases h1 : 1 < st.connection_attempts + 1 <;>
      simp [reconnectStep, disconnect, hmb, hw, hle, h1]
  · cases hmb : st.simulation_mode <;> cases hc : st.is_connected <;>
      cases hw : st.websocket <;>
      simp [send_request, sendRequestInt, hmb, hc, hw]
  · rcases hs1 : (if truthyStr f.req_id then
        lookupA st.pending_requests (f.req_id.getD blankS) else none)
        with _ | fut2
    · rcases hs2 : (if truthyStr f.subscription_id then
          lookupA st.subscriptions (f.subscription_id.getD blankS) else none)
          with _ | cb2
      · cases hp : isPushType f.msg_type <;> simp [handleMessage, hs1, hs2, hp]
      · cases hp : isPushType f.msg_type <;> simp [handleMessage, hs1, hs2, hp]
    · simp [handleMessage, hs1]
  · cases hmb : st.simulation_mode <;> cases hc : st.is_connected <;>
      cases hw : st.websocket <;> cases resp <;>
      simp [subscribe, subscribeSim, subscribeLive, hmb, hc, hw]
  · cases hmb : st.simulation_mode <;> cases hc : st.is_connected <;>
      cases hw : st.websocket <;> cases fo <;>
      cases hk : hasKeyA st.subscriptions sidX <;>
      simp [unsubscribe, hmb, hc, hw, hk]

/-- Claim C10 witness: the constructor yields simulation off; switching
to the real account with a well-formed genuine token under
ENABLE_SIMULATION leaves simulation_mode equal to the placeholder test
of that token conjoined with the flag, and that genuine token passes
the placeholder test. -/
theorem C10_simulation_gate_witness :
    (initConn none true tokDemoX blankS).simulation_mode = false
    ∧ (switch_account baseState false blankS tokGenuine blankS blankS
        true).simulation_mode
      = (is_placeholder_token (if false then blankS else tokGenuine) && true)
    ∧ is_placeholder_token tokGenuine = true := by
  have h := C10_simulation_gate none true tokDemoX blankS baseState false
    blankS tokGenuine blankS blankS true tokGenuine 5 0
    ConnectOutcome.authOk ForgetOutcome.ack tickFrame1 rid1 sid1
    SubResponse.okNoId 7
  exact ⟨h.1, h.2.1 (by decide), h.2.2.1 (by decide) (by decide)⟩
